import Mathlib

/-
Verification of the client-side logic of the Lawns & Laundry prototype
(assets/js/script.js).  The script manages a demo login session in browser
storage, a once-per-session redirect to the quest board, and the login,
signup, quest-post and password-toggle form handlers.  We embed the
relevant functions as pure Lean definitions: browser storage areas become
association lists, DOM/navigation side effects become explicit outcome
records, and each submit handler becomes a function from its inputs and
the browser state to such an outcome.
-/

namespace LL

/-- A Web Storage area (`localStorage` / `sessionStorage`): a finite map
from string keys to string values, represented as an association list. -/
abbrev Store := List (String × String)

/-- Models `storage.getItem(k)`: the value of the first entry with key `k`,
or `none` (JavaScript `null`) when no such entry exists. -/
def Store.getItem : Store → String → Option String
  | [], _ => none
  | kv :: rest, k => if kv.1 = k then some kv.2 else Store.getItem rest k

/-- Models `storage.setItem(k, v)`: replaces the value of an existing entry
with key `k`, or appends a fresh entry. -/
def Store.setItem : Store → String → String → Store
  | [], k, v => [(k, v)]
  | kv :: rest, k, v => if kv.1 = k then (k, v) :: rest else kv :: Store.setItem rest k v

/-- Models `storage.removeItem(k)`: removes every entry with key `k`
(a well-formed storage area has at most one). -/
def Store.removeItem : Store → String → Store
  | [], _ => []
  | kv :: rest, k => if kv.1 = k then Store.removeItem rest k else kv :: Store.removeItem rest k

/-- The browser state the script touches: the persistent `localStorage`
area and the per-tab `sessionStorage` area. -/
structure Browser where
  localStore : Store
  sessionStore : Store
deriving DecidableEq, Repr

/-- `auth.storageKey`, the localStorage key holding the logged-in user. -/
def storageKey : String := "ll_auth_user"

/-- `auth.redirectKey`, the sessionStorage key guarding the once-per-session
redirect. -/
def redirectKey : String := "ll_redirected_questview"

/-- Models the builtin `JSON.stringify` escaping of one character inside a
string literal. -/
def jsonEscapeChar (c : Char) : String :=
  if c = '"' then "\\\""
  else if c = '\\' then "\\\\"
  else if c = '\n' then "\\n"
  else if c = '\r' then "\\r"
  else if c = '\t' then "\\t"
  else if c = '\x08' then "\\b"
  else if c = '\x0c' then "\\f"
  else if c.toNat < 32 then
    "\\u00" ++ String.singleton (Nat.digitChar (c.toNat / 16))
            ++ String.singleton (Nat.digitChar (c.toNat % 16))
  else String.singleton c

/-- Models `JSON.stringify` escaping applied to the characters of a plain
string. -/
def jsonEscape (s : String) : String :=
  String.join (s.toList.map jsonEscapeChar)

/-- Models `JSON.stringify({ username })`, the exact value `auth.login`
persists under `storageKey`. -/
def jsonStringifyUser (username : String) : String :=
  "\x7b\"username\":\"" ++ jsonEscape username ++ "\"\x7d"

/-- Models the JavaScript builtin `String.prototype.trim`: strips leading
and trailing whitespace (the whitespace class is modelled by
`Char.isWhitespace`). -/
def jsTrim (s : String) : String :=
  String.mk (((s.data.dropWhile Char.isWhitespace).reverse.dropWhile Char.isWhitespace).reverse)

/-- Models `auth.login(user)` (script.js line 42): persists the serialized
user record in localStorage under `storageKey`. -/
def authLogin (username : String) (b : Browser) : Browser :=
  { b with localStore := b.localStore.setItem storageKey (jsonStringifyUser username) }

/-- Models `auth.logout()` (script.js line 47): removes the persisted user
from localStorage and the redirect flag from sessionStorage. -/
def authLogout (b : Browser) : Browser :=
  { localStore := b.localStore.removeItem storageKey,
    sessionStore := b.sessionStore.removeItem redirectKey }

/-- Models `auth.isLoggedIn()` (script.js line 53): true iff the value under
`storageKey` is not `null`. -/
def authIsLoggedIn (b : Browser) : Bool :=
  (b.localStore.getItem storageKey).isSome

/-- The browser state together with the navigation, if any, that
`auth.redirectToQuestOnce` performs. -/
structure RedirectOutcome where
  browser : Browser
  navigation : Option String
deriving DecidableEq, Repr

/-- Models `auth.redirectToQuestOnce()` (script.js lines 58-66), with the
final segment of `location.pathname` passed in as `currentPage`: when
logged in, not already redirected this session, and not on the quest board
or the admin page, it sets the session flag and navigates to
`questBoard.html`; otherwise it does nothing. -/
def redirectToQuestOnce (currentPage : String) (b : Browser) : RedirectOutcome :=
  if ¬ authIsLoggedIn b then ⟨b, none⟩
  else
    let alreadyRedirected := b.sessionStore.getItem redirectKey = some "1"
    if alreadyRedirected ∨ currentPage = "questBoard.html" ∨ currentPage = "admin.html" then
      ⟨b, none⟩
    else
      ⟨{ b with sessionStore := b.sessionStore.setItem redirectKey "1" },
        some "questBoard.html"⟩

/-- The guard under which `redirectToQuestOnce` fires: logged in, flag not
yet set this session, and the current page is neither the quest board nor
the admin page. -/
def redirectReady (currentPage : String) (b : Browser) : Prop :=
  authIsLoggedIn b = true
  ∧ b.sessionStore.getItem redirectKey ≠ some "1"
  ∧ currentPage ≠ "questBoard.html"
  ∧ currentPage ≠ "admin.html"

instance (p : String) (b : Browser) : Decidable (redirectReady p b) := by
  unfold redirectReady
  infer_instance

/-- The exception a browser raises when storage is accessed while
unavailable (e.g., storage disabled). -/
def storageUnavailableMsg : String := "SecurityError: storage unavailable"

/-- Storage read in an environment where storage may be unavailable:
when `avail` is false the access throws (modelled as `Except.error`);
the script wraps no storage access in try/catch. -/
def Store.getItemE (avail : Bool) (s : Store) (k : String) : Except String (Option String) :=
  if avail then Except.ok (s.getItem k) else Except.error storageUnavailableMsg

/-- Storage write in an environment where storage may be unavailable. -/
def Store.setItemE (avail : Bool) (s : Store) (k v : String) : Except String Store :=
  if avail then Except.ok (s.setItem k v) else Except.error storageUnavailableMsg

/-- Storage removal in an environment where storage may be unavailable. -/
def Store.removeItemE (avail : Bool) (s : Store) (k : String) : Except String Store :=
  if avail then Except.ok (s.removeItem k) else Except.error storageUnavailableMsg

/-- `auth.login` under possibly-unavailable storage: the code performs the
raw `localStorage.setItem` with no error handling, so a storage exception
propagates. -/
def authLoginE (avail : Bool) (username : String) (b : Browser) : Except String Browser := do
  let l ← Store.setItemE avail b.localStore storageKey (jsonStringifyUser username)
  pure { b with localStore := l }

/-- `auth.logout` under possibly-unavailable storage. -/
def authLogoutE (avail : Bool) (b : Browser) : Except String Browser := do
  let l ← Store.removeItemE avail b.localStore storageKey
  let s ← Store.removeItemE avail b.sessionStore redirectKey
  pure { localStore := l, sessionStore := s }

/-- `auth.isLoggedIn` under possibly-unavailable storage. -/
def authIsLoggedInE (avail : Bool) (b : Browser) : Except String Bool := do
  let v ← Store.getItemE avail b.localStore storageKey
  pure v.isSome

/-- `auth.redirectToQuestOnce` under possibly-unavailable storage: its very
first step reads `localStorage` through `isLoggedIn`, unguarded. -/
def redirectToQuestOnceE (avail : Bool) (currentPage : String) (b : Browser) :
    Except String RedirectOutcome := do
  let logged ← authIsLoggedInE avail b
  if ¬ logged then pure ⟨b, none⟩
  else
    let flag ← Store.getItemE avail b.sessionStore redirectKey
    if flag = some "1" ∨ currentPage = "questBoard.html" ∨ currentPage = "admin.html" then
      pure ⟨b, none⟩
    else
      let s ← Store.setItemE avail b.sessionStore redirectKey "1"
      pure ⟨{ b with sessionStore := s }, some "questBoard.html"⟩

/-- An inline message appended to a form by `showMessage(form, text, kind)`;
`kind` is the CSS class, "error" or "success". -/
structure Message where
  text : String
  kind : String
deriving DecidableEq, Repr

/-- The observable effects of one login-form submission: the browser state
after the handler, the navigation it performs (the value assigned to
`location.href`), and the inline message it shows. -/
structure SubmitOutcome where
  browser : Browser
  navigation : Option String
  message : Option Message
deriving DecidableEq, Repr

/-- The admin destination computed at script.js line 236: relative when the
login page lives under `/pages/auth/`, absolute otherwise. -/
def adminPath (underAuthPages : Bool) : String :=
  if underAuthPages then "../../admin/admin.html" else "/admin/admin.html"

/-- The default quest-board destination computed at script.js line 248. -/
def questBoardPath (underAuthPages : Bool) : String :=
  if underAuthPages then "../quests/questBoard.html" else "/pages/quests/questBoard.html"

/-- Models one submission of the login form (`setupLoginForm`, script.js
lines 219-251).  `usernameRaw` and `password` are the field values,
`returnUrl` is `new URLSearchParams(location.search).get("return")`
(`none` for JavaScript `null`), `underAuthPages` tells whether
`location.pathname` contains `/pages/auth/`, and `b` is the browser
storage.  The handler trims the username, rejects empty fields, sends
`admin`/`admin123` to the admin page, and otherwise logs in and navigates
to `returnUrl || questBoardPath` (JavaScript `||`, under which both `null`
and the empty string fall through to the default). -/
def loginSubmit (usernameRaw password : String) (returnUrl : Option String)
    (underAuthPages : Bool) (b : Browser) : SubmitOutcome :=
  let username := jsTrim usernameRaw
  if username = "" ∨ password = "" then
    ⟨b, none, some ⟨"Please enter both username and password.", "error"⟩⟩
  else if username = "admin" ∧ password = "admin123" then
    ⟨authLogin username b, some (adminPath underAuthPages),
      some ⟨"Admin login successful! Redirecting...", "success"⟩⟩
  else
    let ret := returnUrl.getD ""
    ⟨authLogin username b,
      some (if ret = "" then questBoardPath underAuthPages else ret), none⟩

/-- The outcome of one signup-form submission (`setupSignupForm` shows
exactly one of these messages, or proceeds to the success branch). -/
inductive SignupOutcome
  | allFieldsRequired
  | passwordTooShort
  | passwordsDoNotMatch
  | success
deriving DecidableEq, Repr

/-- Models one submission of the signup form (`setupSignupForm`, script.js
lines 256-290): name and email are trimmed; the checks run in order —
any of name/email/password empty, then password length below 6, then
password different from the confirmation — and the first failure wins. -/
def signupSubmit (nameRaw emailRaw password confirmPassword : String) : SignupOutcome :=
  let name := jsTrim nameRaw
  let email := jsTrim emailRaw
  if name = "" ∨ email = "" ∨ password = "" then .allFieldsRequired
  else if password.length < 6 then .passwordTooShort
  else if password ≠ confirmPassword then .passwordsDoNotMatch
  else .success

/-- The three text fields of the quest-post form. -/
structure QuestForm where
  title : String
  budget : String
  desc : String
deriving DecidableEq, Repr

/-- The observable effects of one quest-form submission: the form fields
after the handler, the browser storage (which the handler never touches),
and the inline message. -/
structure QuestOutcome where
  form : QuestForm
  browser : Browser
  message : Option Message
deriving DecidableEq, Repr

/-- Models one submission of the quest-post form (`setupQuestForm`,
script.js lines 295-334): if any trimmed field is empty it shows one
combined error and leaves the fields alone; otherwise `form.reset()`
clears the fields (their defaults are empty) and a success message is
shown.  The decorative checkmark element the success branch may prepend is
pure presentation and is not modelled.  No storage is read or written. -/
def questSubmit (f : QuestForm) (b : Browser) : QuestOutcome :=
  if jsTrim f.title = "" ∨ jsTrim f.budget = "" ∨ jsTrim f.desc = "" then
    ⟨f, b, some ⟨"Please complete all fields.", "error"⟩⟩
  else
    ⟨⟨"", "", ""⟩, b, some ⟨"Quest submitted successfully!", "success"⟩⟩

/-- Models one click on a password toggle (`setupPasswordToggles`,
script.js lines 339-352) as acting on the pair (target field's `type`
attribute, toggle button's label).  The listener reads only the field's
`type`: a masked field becomes `text` with label `Hide`, anything else
becomes `password` with label `Show`. -/
def toggleClickFull (fieldType : String) (_label : String) : String × String :=
  if fieldType = "password" then ("text", "Hide") else ("password", "Show")

/-- A password input element: its `id` and its `type` attribute. -/
structure FieldEl where
  id : String
  fieldType : String
deriving DecidableEq, Repr

/-- A toggle button: its `data-for` target id and its current label. -/
structure ToggleButton where
  dataFor : String
  label : String
deriving DecidableEq, Repr

/-- A page holding several password fields and toggle buttons. -/
structure TogglePage where
  fields : List FieldEl
  buttons : List ToggleButton
deriving DecidableEq, Repr

/-- Models `document.getElementById` over the page's fields: the first
field with the given id. -/
def getElementById : List FieldEl → String → Option FieldEl
  | [], _ => none
  | f :: rest, i => if f.id = i then some f else getElementById rest i

/-- Sets the `type` attribute of the first field with the given id (the one
`getElementById` returns). -/
def updateFieldType : List FieldEl → String → String → List FieldEl
  | [], _, _ => []
  | f :: rest, i, t =>
    if f.id = i then { f with fieldType := t } :: rest
    else f :: updateFieldType rest i t

/-- Sets the label of the button at index `k` (the clicked button sets its
own `textContent`). -/
def setLabelAt : List ToggleButton → Nat → String → List ToggleButton
  | [], _, _ => []
  | b2 :: rest, 0, l => { b2 with label := l } :: rest
  | b2 :: rest, Nat.succ k, l => b2 :: setLabelAt rest k l

/-- Models a click on toggle button `k` of a page: `setupPasswordToggles`
attaches a listener only when the button's `data-for` target exists; the
listener flips that field's `type` and rewrites the button's own label. -/
def clickToggle (pg : TogglePage) (k : Nat) : TogglePage :=
  match pg.buttons.get? k with
  | none => pg
  | some btn =>
    match getElementById pg.fields btn.dataFor with
    | none => pg
    | some fld =>
      { fields := updateFieldType pg.fields btn.dataFor (toggleClickFull fld.fieldType btn.label).1,
        buttons := setLabelAt pg.buttons k (toggleClickFull fld.fieldType btn.label).2 }

/- Basic facts about the storage model. -/

theorem Store.getItem_setItem_self (s : Store) (k v : String) :
    (s.setItem k v).getItem k = some v := by
  induction s with
  | nil => simp [Store.setItem, Store.getItem]
  | cons kv rest ih =>
    by_cases h : kv.1 = k
    · simp [Store.setItem, Store.getItem, h]
    · simp [Store.setItem, Store.getItem, h, ih]

theorem Store.getItem_removeItem_self (s : Store) (k : String) :
    (s.removeItem k).getItem k = none := by
  induction s with
  | nil => simp [Store.removeItem, Store.getItem]
  | cons kv rest ih =>
    by_cases h : kv.1 = k
    · simp [Store.removeItem, h, ih]
    · simp [Store.removeItem, Store.getItem, h, ih]

theorem Store.removeItem_idem (s : Store) (k : String) :
    (s.removeItem k).removeItem k = s.removeItem k := by
  induction s with
  | nil => rfl
  | cons kv rest ih =>
    by_cases h : kv.1 = k
    · simp [Store.removeItem, h, ih]
    · simp [Store.removeItem, h, ih]

theorem Store.removeItem_eq_self (s : Store) (k : String) (h : s.getItem k = none) :
    s.removeItem k = s := by
  induction s with
  | nil => rfl
  | cons kv rest ih =>
    by_cases hk : kv.1 = k
    · simp [Store.getItem, hk] at h
    · simp [Store.getItem, hk] at h
      simp [Store.removeItem, hk, ih h]

theorem authIsLoggedIn_authLogin (u : String) (b : Browser) :
    authIsLoggedIn (authLogin u b) = true := by
  simp [authIsLoggedIn, authLogin, Store.getItem_setItem_self]

/- The three branches of the login handler, as equations. -/

theorem loginSubmit_empty (u p : String) (r : Option String) (loc : Bool) (b : Browser)
    (h : jsTrim u = "" ∨ p = "") :
    loginSubmit u p r loc b =
      ⟨b, none, some ⟨"Please enter both username and password.", "error"⟩⟩ := by
  simp only [loginSubmit]
  rw [if_pos h]

theorem loginSubmit_elevated (u p : String) (r : Option String) (loc : Bool) (b : Browser)
    (h1 : ¬(jsTrim u = "" ∨ p = "")) (h2 : jsTrim u = "admin" ∧ p = "admin123") :
    loginSubmit u p r loc b =
      ⟨authLogin (jsTrim u) b, some (adminPath loc),
        some ⟨"Admin login successful! Redirecting...", "success"⟩⟩ := by
  simp only [loginSubmit]
  rw [if_neg h1, if_pos h2]

theorem loginSubmit_ordinary (u p : String) (r : Option String) (loc : Bool) (b : Browser)
    (h1 : ¬(jsTrim u = "" ∨ p = "")) (h2 : ¬(jsTrim u = "admin" ∧ p = "admin123")) :
    loginSubmit u p r loc b =
      ⟨authLogin (jsTrim u) b,
        some (if r.getD "" = "" then questBoardPath loc else r.getD ""), none⟩ := by
  simp only [loginSubmit]
  rw [if_neg h1, if_neg h2]

/- Lemmas about the password-toggle page model. -/

theorem setLabelAt_get?_ne (bs : List ToggleButton) (k j : Nat) (l : String) (h : j ≠ k) :
    (setLabelAt bs k l).get? j = bs.get? j := by
  induction bs generalizing k j with
  | nil => rfl
  | cons b2 rest ih =>
    cases k with
    | zero =>
      cases j with
      | zero => exact absurd rfl h
      | succ j2 => rfl
    | succ k2 =>
      cases j with
      | zero => rfl
      | succ j2 => exact ih k2 j2 (fun hh => h (congrArg Nat.succ hh))

theorem setLabelAt_get?_self (bs : List ToggleButton) (k : Nat) (l : String)
    (b2 : ToggleButton) (h : bs.get? k = some b2) :
    (setLabelAt bs k l).get? k = some { b2 with label := l } := by
  induction bs generalizing k with
  | nil => cases k <;> exact Option.noConfusion h
  | cons b3 rest ih =>
    cases k with
    | zero =>
      have h2 : some b3 = some b2 := h
      injection h2 with h3
      subst h3
      rfl
    | succ k2 => exact ih k2 h

theorem getElementById_updateFieldType_ne (fs : List FieldEl) (i i2 t : String) (h : i ≠ i2) :
    getElementById (updateFieldType fs i2 t) i = getElementById fs i := by
  induction fs with
  | nil => rfl
  | cons f rest ih =>
    have hi2 : ¬ i2 = i := fun hc => h hc.symm
    by_cases hf : f.id = i2
    · simp [updateFieldType, getElementById, hf, hi2]
    · by_cases hfi : f.id = i
      · simp [updateFieldType, getElementById, hf, hfi, h, hi2]
      · simp [updateFieldType, getElementById, hf, hfi, ih]

theorem getElementById_updateFieldType_self (fs : List FieldEl) (i t : String)
    (fld : FieldEl) (h : getElementById fs i = some fld) :
    getElementById (updateFieldType fs i t) i = some { fld with fieldType := t } := by
  induction fs with
  | nil => simp [getElementById] at h
  | cons f rest ih =>
    by_cases hf : f.id = i
    · simp [getElementById, hf] at h
      subst h
      simp [updateFieldType, getElementById, hf]
    · simp [getElementById, hf] at h
      simp [updateFieldType, getElementById, hf, ih h]

theorem clickToggle_eq_nobtn (pg : TogglePage) (k : Nat)
    (hbk : pg.buttons.get? k = none) : clickToggle pg k = pg := by
  simp only [clickToggle, hbk]

theorem clickToggle_eq_nofield (pg : TogglePage) (k : Nat) (btn : ToggleButton)
    (hbk : pg.buttons.get? k = some btn)
    (hge : getElementById pg.fields btn.dataFor = none) : clickToggle pg k = pg := by
  simp only [clickToggle, hbk, hge]

theorem clickToggle_eq_hit (pg : TogglePage) (k : Nat) (btn : ToggleButton) (fld : FieldEl)
    (hbk : pg.buttons.get? k = some btn)
    (hge : getElementById pg.fields btn.dataFor = some fld) :
    clickToggle pg k =
      { fields := updateFieldType pg.fields btn.dataFor (toggleClickFull fld.fieldType btn.label).1,
        buttons := setLabelAt pg.buttons k (toggleClickFull fld.fieldType btn.label).2 } := by
  simp only [clickToggle, hbk, hge]

/- Claim theorems. -/

/-- C1 (counterexample to the claim as stated): with username "u",
password "p", and the `return` query parameter present but empty (a URL
ending in `?return=`), the handler navigates to the default quest-board
path rather than to the (empty) target named by the parameter. -/
theorem login_return_param_empty_counterexample :
    (loginSubmit "u" "p" (some "") false ⟨[], []⟩).navigation
        = some "/pages/quests/questBoard.html"
    ∧ (loginSubmit "u" "p" (some "") false ⟨[], []⟩).navigation ≠ some "" := by
  constructor <;> decide

/-- C1 (amended): for every login submission whose trimmed username is
non-empty, whose password is non-empty, and whose credentials are not the
elevated pair, the handler persists a session recording the trimmed
username, navigates to the target named by the `return` query parameter
when a non-empty one is present, and else navigates to the default
quest-board listing path. -/
theorem login_nonelevated_success (u p : String) (r : Option String) (loc : Bool) (b : Browser)
    (hu : jsTrim u ≠ "") (hp : p ≠ "")
    (hadmin : ¬(jsTrim u = "admin" ∧ p = "admin123")) :
    (loginSubmit u p r loc b).browser = authLogin (jsTrim u) b
    ∧ (loginSubmit u p r loc b).browser.localStore.getItem storageKey
        = some (jsonStringifyUser (jsTrim u))
    ∧ (∀ ret : String, r = some ret → ret ≠ "" →
        (loginSubmit u p r loc b).navigation = some ret)
    ∧ ((r = none ∨ r = some "") →
        (loginSubmit u p r loc b).navigation = some (questBoardPath loc)) := by
  have h1 : ¬(jsTrim u = "" ∨ p = "") := by
    intro hor
    cases hor with
    | inl h => exact hu h
    | inr h => exact hp h
  rw [loginSubmit_ordinary u p r loc b h1 hadmin]
  refine ⟨rfl, ?_, ?_, ?_⟩
  · simp [authLogin, Store.getItem_setItem_self]
  · intro ret hr hne
    subst hr
    simp [Option.getD, hne]
  · intro hr
    cases hr with
    | inl h => subst h; simp
    | inr h => subst h; simp

/-- C1 witness. -/
theorem login_nonelevated_success_witness :
    (loginSubmit "alice" "pw" (some "../questgiver/postquest.html") true
        ⟨[], []⟩).navigation = some "../questgiver/postquest.html" := by
  have h := login_nonelevated_success "alice" "pw" (some "../questgiver/postquest.html") true
    ⟨[], []⟩ (by decide) (by decide) (by decide)
  exact h.2.2.1 "../questgiver/postquest.html" rfl (by decide)

/-- C2: a login submission with username `admin` and password `admin123`
persists the session and navigates to the admin destination; the outcome
is the same whatever the `return` query parameter holds, so the handler
never navigates to the `return` target. -/
theorem login_admin_redirects_to_admin (r : Option String) (loc : Bool) (b : Browser) :
    (loginSubmit "admin" "admin123" r loc b).navigation = some (adminPath loc)
    ∧ (loginSubmit "admin" "admin123" r loc b).browser.localStore.getItem storageKey
        = some (jsonStringifyUser "admin")
    ∧ loginSubmit "admin" "admin123" r loc b = loginSubmit "admin" "admin123" none loc b := by
  have hadm : jsTrim "admin" = "admin" := by decide
  have he : ∀ r2 : Option String, loginSubmit "admin" "admin123" r2 loc b =
      ⟨authLogin "admin" b, some (adminPath loc),
        some ⟨"Admin login successful! Redirecting...", "success"⟩⟩ := by
    intro r2
    have := loginSubmit_elevated "admin" "admin123" r2 loc b
      (by rw [hadm]; decide) (by rw [hadm]; exact ⟨rfl, rfl⟩)
    rw [this, hadm]
  rw [he r, he none]
  exact ⟨rfl, by simp [authLogin, Store.getItem_setItem_self], rfl⟩

/-- C3: `redirectToQuestOnce` sets the session flag and navigates to the
quest board exactly when the user is logged in, the flag is unset, and the
current page is neither the quest board nor the admin page; in every other
state it is a no-op; and across two successive non-excluded page loads in
one logged-in session the redirect happens on the first load and not on
the second. -/
theorem redirect_fires_at_most_once :
    (∀ (page : String) (b : Browser), redirectReady page b →
        redirectToQuestOnce page b =
          ⟨{ b with sessionStore := b.sessionStore.setItem redirectKey "1" },
            some "questBoard.html"⟩)
    ∧ (∀ (page : String) (b : Browser), ¬ redirectReady page b →
        redirectToQuestOnce page b = ⟨b, none⟩)
    ∧ (∀ (p1 p2 : String) (b : Browser), redirectReady p1 b →
        p2 ≠ "questBoard.html" → p2 ≠ "admin.html" →
        (redirectToQuestOnce p1 b).navigation = some "questBoard.html"
        ∧ (redirectToQuestOnce p2 (redirectToQuestOnce p1 b).browser).navigation = none) := by
  have hfire : ∀ (page : String) (b : Browser), redirectReady page b →
      redirectToQuestOnce page b =
        ⟨{ b with sessionStore := b.sessionStore.setItem redirectKey "1" },
          some "questBoard.html"⟩ := by
    intro page b hr
    obtain ⟨hl, hf, hq, ha⟩ := hr
    simp only [redirectToQuestOnce]
    rw [if_neg (by simp [hl]), if_neg (by push_neg; exact ⟨hf, hq, ha⟩)]
  have hnoop : ∀ (page : String) (b : Browser), ¬ redirectReady page b →
      redirectToQuestOnce page b = ⟨b, none⟩ := by
    intro page b hn
    simp only [redirectToQuestOnce]
    by_cases hl : authIsLoggedIn b = true
    · have hrest : b.sessionStore.getItem redirectKey = some "1"
          ∨ page = "questBoard.html" ∨ page = "admin.html" := by
        by_contra hc
        push_neg at hc
        exact hn ⟨hl, hc.1, hc.2.1, hc.2.2⟩
      rw [if_neg (by simp [hl]), if_pos hrest]
    · rw [if_pos (by simp [hl])]
  refine ⟨hfire, hnoop, ?_⟩
  intro p1 p2 b hr hq2 ha2
  have hn2 : ¬ redirectReady p2 { b with sessionStore := b.sessionStore.setItem redirectKey "1" } := by
    intro hr2
    obtain ⟨-, hf2, -, -⟩ := hr2
    exact hf2 (by simp [Store.getItem_setItem_self])
  constructor
  · rw [hfire p1 b hr]
  · have hb1 : (redirectToQuestOnce p1 b).browser
        = { b with sessionStore := b.sessionStore.setItem redirectKey "1" } := by
      rw [hfire p1 b hr]
    rw [hb1, hnoop p2 _ hn2]

/-- C3 witness. -/
theorem redirect_fires_at_most_once_witness :
    (redirectToQuestOnce "index.html" ⟨[(storageKey, "x")], []⟩).navigation
        = some "questBoard.html"
    ∧ (redirectToQuestOnce "services.html"
        (redirectToQuestOnce "index.html" ⟨[(storageKey, "x")], []⟩).browser).navigation
        = none := by
  exact redirect_fires_at_most_once.2.2 "index.html" "services.html"
    ⟨[(storageKey, "x")], []⟩ (by decide) (by decide) (by decide)

/-- C4 (the code lacks the claimed degradation): when browser storage is
unavailable, every Session Store operation propagates the storage
exception — none of them is wrapped in try/catch — instead of behaving as
"not logged in" without throwing. -/
theorem auth_throws_when_storage_unavailable (b : Browser) (u page : String) :
    authIsLoggedInE false b = Except.error storageUnavailableMsg
    ∧ authLoginE false u b = Except.error storageUnavailableMsg
    ∧ authLogoutE false b = Except.error storageUnavailableMsg
    ∧ redirectToQuestOnceE false page b = Except.error storageUnavailableMsg := by
  refine ⟨rfl, rfl, rfl, rfl⟩

/-- C5: the signup handler applies its checks in a fixed short-circuit
order — emptiness of name/email/password first, then password length
below 6, then confirmation mismatch — reporting only the first failing
check; a 5-character password is rejected for length, a 6-character one
passes the length check, and a mismatched confirmation is rejected even
when every field satisfies the non-empty and length rules. -/
theorem signup_validation_order (n e p c : String) :
    ((jsTrim n = "" ∨ jsTrim e = "" ∨ p = "") →
        signupSubmit n e p c = SignupOutcome.allFieldsRequired)
    ∧ (jsTrim n ≠ "" → jsTrim e ≠ "" → p ≠ "" → p.length < 6 →
        signupSubmit n e p c = SignupOutcome.passwordTooShort)
    ∧ (jsTrim n ≠ "" → jsTrim e ≠ "" → p ≠ "" → 6 ≤ p.length → p ≠ c →
        signupSubmit n e p c = SignupOutcome.passwordsDoNotMatch)
    ∧ (jsTrim n ≠ "" → jsTrim e ≠ "" → p ≠ "" → 6 ≤ p.length → p = c →
        signupSubmit n e p c = SignupOutcome.success)
    ∧ (jsTrim n ≠ "" → jsTrim e ≠ "" → p.length = 5 →
        signupSubmit n e p c = SignupOutcome.passwordTooShort)
    ∧ (jsTrim n ≠ "" → jsTrim e ≠ "" → p.length = 6 →
        signupSubmit n e p c ≠ SignupOutcome.passwordTooShort) := by
  have hlen : ∀ q : String, q.length ≠ 0 → q ≠ "" := by
    intro q hq hempty
    subst hempty
    exact hq rfl
  have hshort : ∀ hn : jsTrim n ≠ "", ∀ he2 : jsTrim e ≠ "", ∀ hp : p ≠ "",
      p.length < 6 → signupSubmit n e p c = SignupOutcome.passwordTooShort := by
    intro hn he2 hp hl
    simp only [signupSubmit]
    rw [if_neg (by push_neg; exact ⟨hn, he2, hp⟩), if_pos hl]
  have hlong : ∀ hn : jsTrim n ≠ "", ∀ he2 : jsTrim e ≠ "", ∀ hp : p ≠ "",
      6 ≤ p.length →
      signupSubmit n e p c = if p ≠ c then SignupOutcome.passwordsDoNotMatch
        else SignupOutcome.success := by
    intro hn he2 hp hl
    simp only [signupSubmit]
    rw [if_neg (by push_neg; exact ⟨hn, he2, hp⟩), if_neg (by omega)]
  refine ⟨?_, hshort, ?_, ?_, ?_, ?_⟩
  · intro h
    simp only [signupSubmit]
    rw [if_pos h]
  · intro hn he2 hp hl hne
    rw [hlong hn he2 hp hl, if_pos hne]
  · intro hn he2 hp hl heq
    rw [hlong hn he2 hp hl, if_neg (by simp [heq])]
  · intro hn he2 h5
    exact hshort hn he2 (hlen p (by omega)) (by omega)
  · intro hn he2 h6
    have hp : p ≠ "" := hlen p (by omega)
    rw [hlong hn he2 hp (by omega)]
    by_cases hc : p ≠ c
    · rw [if_pos hc]
      intro hcon
      cases hcon
    · rw [if_neg hc]
      intro hcon
      cases hcon

/-- C5 witness. -/
theorem signup_validation_order_witness :
    signupSubmit "Alice" "a@b.c" "abcde" "abcde" = SignupOutcome.passwordTooShort
    ∧ signupSubmit "Alice" "a@b.c" "abcdef" "abcdeg" = SignupOutcome.passwordsDoNotMatch
    ∧ signupSubmit "Alice" "a@b.c" "abcdef" "abcdef" ≠ SignupOutcome.passwordTooShort := by
  refine ⟨?_, ?_, ?_⟩
  · exact (signup_validation_order "Alice" "a@b.c" "abcde" "abcde").2.2.2.2.1
      (by decide) (by decide) (by decide)
  · exact (signup_validation_order "Alice" "a@b.c" "abcdef" "abcdeg").2.2.1
      (by decide) (by decide) (by decide) (by decide) (by decide)
  · exact (signup_validation_order "Alice" "a@b.c" "abcdef" "abcdef").2.2.2.2.2
      (by decide) (by decide) (by decide)

/-- C6: a login submission with an empty (trimmed) username or empty
password shows the error message, leaves the browser storage unchanged,
and performs no navigation; and emptiness is the only rejected input —
every submission with both fields non-empty persists a session and
navigates. -/
theorem login_rejects_only_emptiness (u p : String) (r : Option String) (loc : Bool)
    (b : Browser) :
    ((jsTrim u = "" ∨ p = "") →
        loginSubmit u p r loc b =
          ⟨b, none, some ⟨"Please enter both username and password.", "error"⟩⟩)
    ∧ (jsTrim u ≠ "" → p ≠ "" →
        (loginSubmit u p r loc b).browser = authLogin (jsTrim u) b
        ∧ authIsLoggedIn (loginSubmit u p r loc b).browser = true
        ∧ (loginSubmit u p r loc b).navigation.isSome = true) := by
  constructor
  · exact loginSubmit_empty u p r loc b
  · intro hu hp
    have h1 : ¬(jsTrim u = "" ∨ p = "") := by
      intro hor
      cases hor with
      | inl h => exact hu h
      | inr h => exact hp h
    by_cases h2 : jsTrim u = "admin" ∧ p = "admin123"
    · rw [loginSubmit_elevated u p r loc b h1 h2]
      exact ⟨rfl, authIsLoggedIn_authLogin _ b, rfl⟩
    · rw [loginSubmit_ordinary u p r loc b h1 h2]
      exact ⟨rfl, authIsLoggedIn_authLogin _ b, rfl⟩

/-- C6 witness. -/
theorem login_rejects_only_emptiness_witness :
    loginSubmit "" "pw" none false ⟨[], []⟩ =
      ⟨⟨[], []⟩, none, some ⟨"Please enter both username and password.", "error"⟩⟩
    ∧ authIsLoggedIn (loginSubmit "bob" "pw" none false ⟨[], []⟩).browser = true := by
  constructor
  · exact (login_rejects_only_emptiness "" "pw" none false ⟨[], []⟩).1 (Or.inl (by decide))
  · exact ((login_rejects_only_emptiness "bob" "pw" none false ⟨[], []⟩).2
      (by decide) (by decide)).2.1

/-- C7 (counterexample to the claim as stated): on a state with no
session but with the redirect-once flag set, `logout` is not a no-op — it
clears the flag. -/
theorem logout_without_session_counterexample :
    authIsLoggedIn ⟨[], [(redirectKey, "1")]⟩ = false
    ∧ authLogout ⟨[], [(redirectKey, "1")]⟩ ≠ (⟨[], [(redirectKey, "1")]⟩ : Browser) := by
  constructor <;> decide

/-- C7 (amended): `isLoggedIn` is true immediately after `login(u)` and
false immediately after `logout()`; `logout` removes the persisted user,
clears the redirect-once flag, and is idempotent; and it is a no-op when
no session exists and the redirect-once flag is also absent. -/
theorem auth_login_logout_lifecycle (b : Browser) (u : String) :
    authIsLoggedIn (authLogin u b) = true
    ∧ authIsLoggedIn (authLogout b) = false
    ∧ (authLogout b).localStore.getItem storageKey = none
    ∧ (authLogout b).sessionStore.getItem redirectKey = none
    ∧ authLogout (authLogout b) = authLogout b
    ∧ (authIsLoggedIn b = false → b.sessionStore.getItem redirectKey = none →
        authLogout b = b) := by
  refine ⟨authIsLoggedIn_authLogin u b, ?_, ?_, ?_, ?_, ?_⟩
  · simp [authIsLoggedIn, authLogout, Store.getItem_removeItem_self]
  · simp [authLogout, Store.getItem_removeItem_self]
  · simp [authLogout, Store.getItem_removeItem_self]
  · simp [authLogout, Store.removeItem_idem]
  · intro hl hf
    have hnone : b.localStore.getItem storageKey = none := by
      have hl2 : (b.localStore.getItem storageKey).isSome = false := hl
      cases ho : b.localStore.getItem storageKey with
      | none => rfl
      | some v =>
        rw [ho] at hl2
        simp at hl2
    show Browser.mk (b.localStore.removeItem storageKey)
        (b.sessionStore.removeItem redirectKey) = b
    rw [Store.removeItem_eq_self _ _ hnone, Store.removeItem_eq_self _ _ hf]

/-- C7 witness. -/
theorem auth_login_logout_lifecycle_witness :
    authLogout ⟨[], []⟩ = (⟨[], []⟩ : Browser) := by
  exact (auth_login_logout_lifecycle ⟨[], []⟩ "alice").2.2.2.2.2 (by decide) (by decide)

/-- C8: a quest-post submission with any trimmed field blank shows the
single combined error and leaves every form field and the browser storage
unchanged; with all fields filled the form is cleared and the success
message shown; the handler never touches storage, so resubmitting the
same inputs behaves exactly like a first submission. -/
theorem quest_form_frame_and_reset (f : QuestForm) (b : Browser) :
    ((jsTrim f.title = "" ∨ jsTrim f.budget = "" ∨ jsTrim f.desc = "") →
        questSubmit f b = ⟨f, b, some ⟨"Please complete all fields.", "error"⟩⟩)
    ∧ (jsTrim f.title ≠ "" → jsTrim f.budget ≠ "" → jsTrim f.desc ≠ "" →
        questSubmit f b = ⟨⟨"", "", ""⟩, b, some ⟨"Quest submitted successfully!", "success"⟩⟩)
    ∧ (questSubmit f b).browser = b
    ∧ questSubmit f (questSubmit f b).browser = questSubmit f b := by
  have hframe : (questSubmit f b).browser = b := by
    simp only [questSubmit]
    by_cases h : jsTrim f.title = "" ∨ jsTrim f.budget = "" ∨ jsTrim f.desc = ""
    · rw [if_pos h]
    · rw [if_neg h]
  refine ⟨?_, ?_, hframe, ?_⟩
  · intro h
    simp only [questSubmit]
    rw [if_pos h]
  · intro h1 h2 h3
    simp only [questSubmit]
    rw [if_neg (by push_neg; exact ⟨h1, h2, h3⟩)]
  · rw [hframe]

/-- C8 witness. -/
theorem quest_form_frame_and_reset_witness :
    questSubmit ⟨"Mow lawn", "", "Front yard"⟩ ⟨[], []⟩ =
      ⟨⟨"Mow lawn", "", "Front yard"⟩, ⟨[], []⟩,
        some ⟨"Please complete all fields.", "error"⟩⟩
    ∧ questSubmit ⟨"Mow lawn", "20", "Front yard"⟩ ⟨[], []⟩ =
      ⟨⟨"", "", ""⟩, ⟨[], []⟩, some ⟨"Quest submitted successfully!", "success"⟩⟩ := by
  constructor
  · exact (quest_form_frame_and_reset ⟨"Mow lawn", "", "Front yard"⟩ ⟨[], []⟩).1
      (Or.inr (Or.inl (by decide)))
  · exact (quest_form_frame_and_reset ⟨"Mow lawn", "20", "Front yard"⟩ ⟨[], []⟩).2.1
      (by decide) (by decide) (by decide)

/-- C9: one click on a masked field yields plaintext with label "Hide",
a second click restores the masked state with label "Show", so two clicks
starting from ("password", "Show") are the identity; the click outcome
never depends on the current label (the toggle keeps no state beyond the
field's type attribute); and at page level a click on one toggle leaves
every other button's label and every other field untouched, while
flipping exactly its own target field and label. -/
theorem password_toggle_clicks_involutive :
    (∀ l : String, toggleClickFull "password" l = ("text", "Hide"))
    ∧ (∀ t l : String, t ≠ "password" → toggleClickFull t l = ("password", "Show"))
    ∧ toggleClickFull (toggleClickFull "password" "Show").1
        (toggleClickFull "password" "Show").2 = ("password", "Show")
    ∧ (∀ t l1 l2 : String, toggleClickFull t l1 = toggleClickFull t l2)
    ∧ (∀ (pg : TogglePage) (k j : Nat), j ≠ k →
        (clickToggle pg k).buttons.get? j = pg.buttons.get? j)
    ∧ (∀ (pg : TogglePage) (k : Nat) (btn : ToggleButton) (i : String),
        pg.buttons.get? k = some btn → i ≠ btn.dataFor →
        getElementById (clickToggle pg k).fields i = getElementById pg.fields i)
    ∧ (∀ (pg : TogglePage) (k : Nat) (btn : ToggleButton) (fld : FieldEl),
        pg.buttons.get? k = some btn →
        getElementById pg.fields btn.dataFor = some fld →
        getElementById (clickToggle pg k).fields btn.dataFor
            = some { fld with fieldType := (toggleClickFull fld.fieldType btn.label).1 }
        ∧ (clickToggle pg k).buttons.get? k
            = some { btn with label := (toggleClickFull fld.fieldType btn.label).2 }) := by
  refine ⟨fun l => rfl, ?_, rfl, fun t l1 l2 => rfl, ?_, ?_, ?_⟩
  · intro t l ht
    simp [toggleClickFull, ht]
  · intro pg k j hj
    cases hbk : pg.buttons.get? k with
    | none => rw [clickToggle_eq_nobtn pg k hbk]
    | some btn =>
      cases hge : getElementById pg.fields btn.dataFor with
      | none => rw [clickToggle_eq_nofield pg k btn hbk hge]
      | some fld =>
        rw [clickToggle_eq_hit pg k btn fld hbk hge]
        exact setLabelAt_get?_ne pg.buttons k j _ hj
  · intro pg k btn i hbk hi
    cases hge : getElementById pg.fields btn.dataFor with
    | none => rw [clickToggle_eq_nofield pg k btn hbk hge]
    | some fld =>
      rw [clickToggle_eq_hit pg k btn fld hbk hge]
      exact getElementById_updateFieldType_ne pg.fields i btn.dataFor _ hi
  · intro pg k btn fld hbk hge
    rw [clickToggle_eq_hit pg k btn fld hbk hge]
    exact ⟨getElementById_updateFieldType_self pg.fields btn.dataFor _ fld hge,
      setLabelAt_get?_self pg.buttons k _ btn hbk⟩

/-- C9 witness. -/
theorem password_toggle_clicks_involutive_witness :
    toggleClickFull "text" "Hide" = ("password", "Show")
    ∧ (clickToggle ⟨[⟨"password", "password"⟩, ⟨"confirm-password", "password"⟩],
        [⟨"password", "Show"⟩, ⟨"confirm-password", "Show"⟩]⟩ 0).buttons.get? 1
      = some ⟨"confirm-password", "Show"⟩ := by
  constructor
  · exact password_toggle_clicks_involutive.2.1 "text" "Hide" (by decide)
  · exact password_toggle_clicks_involutive.2.2.2.2.1
      ⟨[⟨"password", "password"⟩, ⟨"confirm-password", "password"⟩],
        [⟨"password", "Show"⟩, ⟨"confirm-password", "Show"⟩]⟩ 0 1 (by decide)

/-- C10: the login handler trims the username but not the password: a
username that trims to empty is rejected as empty; a successful
non-elevated login records the trimmed username in the session; and a
whitespace-only password counts as non-empty, yielding a successful
login. -/
theorem login_trims_username_not_password (u p : String) (r : Option String) (loc : Bool)
    (b : Browser) :
    (jsTrim u = "" →
        loginSubmit u p r loc b =
          ⟨b, none, some ⟨"Please enter both username and password.", "error"⟩⟩)
    ∧ (jsTrim u ≠ "" → p ≠ "" → ¬(jsTrim u = "admin" ∧ p = "admin123") →
        (loginSubmit u p r loc b).browser.localStore.getItem storageKey
            = some (jsonStringifyUser (jsTrim u)))
    ∧ (jsTrim u ≠ "" → p ≠ "" → jsTrim p = "" →
        authIsLoggedIn (loginSubmit u p r loc b).browser = true
        ∧ (loginSubmit u p r loc b).navigation.isSome = true) := by
  refine ⟨?_, ?_, ?_⟩
  · intro hu
    exact loginSubmit_empty u p r loc b (Or.inl hu)
  · intro hu hp hadmin
    have h1 : ¬(jsTrim u = "" ∨ p = "") := by
      intro hor
      cases hor with
      | inl h => exact hu h
      | inr h => exact hp h
    rw [loginSubmit_ordinary u p r loc b h1 hadmin]
    simp [authLogin, Store.getItem_setItem_self]
  · intro hu hp hpw
    have h1 : ¬(jsTrim u = "" ∨ p = "") := by
      intro hor
      cases hor with
      | inl h => exact hu h
      | inr h => exact hp h
    have h2 : ¬(jsTrim u = "admin" ∧ p = "admin123") := by
      intro hpair
      rw [hpair.2] at hpw
      have : jsTrim "admin123" = "admin123" := by decide
      rw [this] at hpw
      exact absurd hpw (by decide)
    rw [loginSubmit_ordinary u p r loc b h1 h2]
    exact ⟨authIsLoggedIn_authLogin _ b, rfl⟩

/-- C10 witness. -/
theorem login_trims_username_not_password_witness :
    loginSubmit "   " "pw" none false ⟨[], []⟩ =
      ⟨⟨[], []⟩, none, some ⟨"Please enter both username and password.", "error"⟩⟩
    ∧ (loginSubmit " alice " "pw" none false ⟨[], []⟩).browser.localStore.getItem storageKey
        = some (jsonStringifyUser "alice")
    ∧ authIsLoggedIn (loginSubmit "alice" " " none false ⟨[], []⟩).browser = true := by
  refine ⟨?_, ?_, ?_⟩
  · exact (login_trims_username_not_password "   " "pw" none false ⟨[], []⟩).1 (by decide)
  · have h := (login_trims_username_not_password " alice " "pw" none false ⟨[], []⟩).2.1
      (by decide) (by decide) (by decide)
    rw [h]
    have : jsTrim " alice " = "alice" := by decide
    rw [this]
  · exact ((login_trims_username_not_password "alice" " " none false ⟨[], []⟩).2.2
      (by decide) (by decide) (by decide)).1

end LL
